import Mathlib

/-!
# Verification of the Speakap SDK (Node.js `speakap.js`)

A shallow embedding of the server-side JavaScript library shipped in the
Speakap SDK: the signed-request codec (`percentEncode`, `signedRequest`,
`validateSignature`) and the API wrapper (`API` constructor, the verb
methods, the request pipeline's header construction, option normalization
and response classification).

Modelling conventions:

* A JavaScript object used as a flat string-to-string map (`params`) is a
  `List (String × String)` in insertion order; reading `params[key]`
  is `getProp`, which yields `none` for a missing property (JS
  `undefined`).
* Coercing a possibly-`undefined` string to a string (as
  `encodeURIComponent` does) is `jsToString`, with `none ↦ "undefined"`.
* JavaScript truthiness on optional strings is `truthy` (absent and `""`
  are falsy); `a || b` on such values is `jsOrOpt` / `jsOrStr`.
* `new Date(s).getTime()` is an oracle `parseDate : String → Option Int`,
  `none` standing for `NaN`; the comparison `now > NaN + 60000` is `false`
  in JavaScript, which `jsGtNan` reproduces.
* `crypto.createHmac("sha256", secret).update(m).digest("base64")` is an
  oracle parameter `hmacSha256Base64 : String → String → String`.
* Thrown `Error` objects are modelled by `Except String`, carrying the
  exact message built by the source.
* `Array.prototype.sort()` on string keys is `List.insertionSort keyLe`,
  where `keyLe` is the lexicographic order on the key's characters —
  JavaScript's default sort comparison on strings (code-unit order; it
  agrees with code-point order on all keys appearing here).
-/

namespace Speakap

/-- JS property read `params[key]` on an object modelled as an association
list: the first binding wins, a missing key is `undefined` (`none`). -/
def getProp (params : List (String × String)) (key : String) : Option String :=
  match params with
  | [] => none
  | p :: rest => if p.1 = key then some p.2 else getProp rest key

/-- JS string coercion of a possibly-`undefined` value: `undefined`
stringifies to `"undefined"` (this is what `encodeURIComponent(undefined)`
operates on). -/
def jsToString : Option String → String
  | none => "undefined"
  | some s => s

/-- JS truthiness of a possibly-absent string: `undefined` and the empty
string are falsy. -/
def truthy : Option String → Bool
  | none => false
  | some s => s ≠ ""

/-- JS `a || b` where `a` is a possibly-absent string and `b` a string. -/
def jsOrStr (a : Option String) (b : String) : String :=
  if truthy a then jsToString a else b

/-- JS `a || b` where both sides are possibly-absent strings. -/
def jsOrOpt (a b : Option String) : Option String :=
  if truthy a then a else b

/-! ## `encodeURIComponent` and `percentEncode` -/

/-- The punctuation left unescaped by `encodeURIComponent`
(ECMA-262's `uriUnescaped` set, besides letters and digits). -/
def uriMarkChars : List Char := ['-', '_', '.', '!', '~', '*', '\'', '(', ')']

/-- Characters `encodeURIComponent` leaves as-is. -/
def uriUnescaped (c : Char) : Bool :=
  c.isAlpha || c.isDigit || uriMarkChars.contains c

/-- Uppercase hexadecimal digit for `n < 16`. -/
def hexDigitChar (n : Nat) : Char :=
  if n < 10 then Char.ofNat (48 + n) else Char.ofNat (55 + n)

/-- `%XX` escape of one byte, uppercase hex. -/
def percentByte (b : Nat) : String :=
  String.mk ['%', hexDigitChar (b / 16), hexDigitChar (b % 16)]

/-- UTF-8 encoding of a Unicode code point, as a list of byte values. -/
def utf8Bytes (n : Nat) : List Nat :=
  if n < 128 then [n]
  else if n < 2048 then [192 + n / 64, 128 + n % 64]
  else if n < 65536 then [224 + n / 4096, 128 + (n / 64) % 64, 128 + n % 64]
  else [240 + n / 262144, 128 + (n / 4096) % 64, 128 + (n / 64) % 64, 128 + n % 64]

/-- ECMA-262 `encodeURIComponent`: unreserved characters pass through,
every other character becomes the `%XX` escapes of its UTF-8 bytes. -/
def encodeURIComponent (s : String) : String :=
  String.join (s.data.map fun c =>
    if uriUnescaped c then String.singleton c
    else String.join ((utf8Bytes c.toNat).map percentByte))

/-- JS `String.prototype.replace` with a one-character string pattern:
only the FIRST occurrence of the pattern is replaced. -/
def replaceFirstChar : List Char → Char → List Char → List Char
  | [], _, _ => []
  | c :: rest, pat, repl =>
    if c = pat then repl ++ rest else c :: replaceFirstChar rest pat repl

/-- JS `s.replace(pat, repl)` for a single-character pattern string. -/
def replaceFirst (s : String) (pat : Char) (repl : String) : String :=
  String.mk (replaceFirstChar s.data pat repl.data)

/-- `percentEncode` from `speakap.js`:
`encodeURIComponent(string).replace("!", "%21").replace("'", "%27")
.replace("(", "%28").replace(")", "%29").replace("*", "%2A")`.
Note each `.replace` uses a string pattern, so it rewrites only the first
occurrence of its character. -/
def percentEncode (s : String) : String :=
  replaceFirst (replaceFirst (replaceFirst (replaceFirst (replaceFirst
    (encodeURIComponent s) '!' "%21") '\'' "%27") '(' "%28") ')' "%29") '*' "%2A"

/-! ## The key order used by `keys.sort()`

JavaScript's default `Array.prototype.sort()` comparator on strings is
lexicographic comparison of the character sequences. `charListLt` is that
strict comparison, `keyLe` the derived non-strict order used as the sort
relation. -/

/-- Strict lexicographic comparison of two character lists (JS `a < b` on
strings). -/
def charListLt : List Char → List Char → Bool
  | _, [] => false
  | [], _ :: _ => true
  | a :: as, b :: bs =>
    if a.toNat < b.toNat then true
    else if b.toNat < a.toNat then false
    else charListLt as bs

/-- The non-strict order on keys: `a ≤ b` iff not `b < a`. -/
def keyLe (a b : String) : Prop := charListLt b.data a.data = false

instance : DecidableRel keyLe := fun _ _ =>
  inferInstanceAs (Decidable (_ = false))

/-! ## `signedRequest` and `validateSignature` -/

/-- `SIGNATURE_WINDOW_SIZE = 60 * 1000` ms. -/
def SIGNATURE_WINDOW_SIZE : Int := 60 * 1000

/-- `signedRequest(params)` from `speakap.js`: take the keys without
`"signature"`, sort them, push `"signature"` back at the end, and join the
percent-encoded `key=value` pairs with `&`. A missing `signature` property
reads as `undefined` and is stringified to `"undefined"`. -/
def signedRequest (params : List (String × String)) : String :=
  let keys := (((params.map Prod.fst).filter (fun k => k ≠ "signature")).insertionSort
    keyLe) ++ ["signature"]
  String.intercalate "&" (keys.map fun key =>
    percentEncode key ++ "=" ++ percentEncode (jsToString (getProp params key)))

/-- The `queryString` computed inside `validateSignature`: sort all keys,
drop `"signature"`, join percent-encoded `key=value` pairs with `&`. -/
def canonicalQueryString (params : List (String × String)) : String :=
  let keys := (params.map Prod.fst).insertionSort keyLe
  String.intercalate "&" ((keys.filter (fun k => k ≠ "signature")).map fun key =>
    percentEncode key ++ "=" ++ percentEncode (jsToString (getProp params key)))

/-- JS `now > b` where `b` may be `NaN` (`none`): any comparison against
`NaN` is `false`. -/
def jsGtNan (now : Int) : Option Int → Bool
  | none => false
  | some b => now > b

/-- `validateSignature(params, appSecret)` from `speakap.js`.

The HMAC (`crypto.createHmac("sha256", appSecret)…digest("base64")`) and
`new Date(string).getTime()` are external built-ins, passed in as oracles
`hmacSha256Base64` and `parseDate` (`parseDate s = none` models an invalid
date, i.e. `NaN`); `now` is `Date.now()`. Throwing is `Except.error` with
the thrown message. -/
def validateSignature (hmacSha256Base64 : String → String → String)
    (parseDate : String → Option Int) (now : Int)
    (params : List (String × String)) (appSecret : String) : Except String Unit :=
  let queryString := canonicalQueryString params
  let computedHash := hmacSha256Base64 appSecret queryString
  if some computedHash ≠ getProp params "signature" then
    Except.error ("Invalid signature: " ++ queryString)
  else
    let issuedAt := (getProp params "issuedAt").bind parseDate
    if jsGtNan now (issuedAt.map (· + SIGNATURE_WINDOW_SIZE)) then
      Except.error "Expired signature"
    else
      Except.ok ()

/-! ## JavaScript values

`JsValue` models the values flowing through the API wrapper's response
handling: JSON data (as returned by `JSON.parse`), the synthesized error
objects, the `null` initializations of `error`/`result`, and `undefined`
(an argument never passed). `JSON.parse` itself is an external built-in,
modelled as an oracle `String → Option JsValue` where `none` means the
parse threw; a genuine JSON parse never yields `.undef`. -/

inductive JsValue where
  | null
  | undef
  | bool (b : Bool)
  | num (n : Int)
  | str (s : String)
  | arr (elems : List JsValue)
  | obj (fields : List (String × JsValue))

/-- JS truthiness of a callback argument slot: `null` and `undefined` are
the unpopulated values; every object, string, number, array or boolean
passed by this code is "populated". -/
def JsValue.populated : JsValue → Bool
  | .null => false
  | .undef => false
  | _ => true

/-! ## Response classification (`request`, response `end` handler)

The handler initializes `error = null; result = null;`, fills exactly the
slots the source fills, and then invokes `callback(error, result)`. The
returned pair is `(error, result)` as handed to the callback. -/

/-- The `end` handler of `request` in `speakap.js`: classify the response
by status code, parsing the body with the `JSON.parse` oracle `parse`
(`parse body = none` models a parse exception). -/
def handleResponseEnd (parse : String → Option JsValue) (statusCode : Nat)
    (responseBody : String) : JsValue × JsValue :=
  if statusCode = 204 then
    (JsValue.null, JsValue.bool true)
  else if 200 ≤ statusCode ∧ statusCode < 300 then
    match parse responseBody with
    | some j => (JsValue.null, j)
    | none =>
      (JsValue.obj [("code", JsValue.num (-1001)),
        ("message", JsValue.str "Unexpected Reply"),
        ("description", JsValue.str responseBody)], JsValue.null)
  else
    match parse responseBody with
    | some j => (j, JsValue.null)
    | none =>
      (JsValue.obj [("code", JsValue.num (-1001)),
        ("message", JsValue.str "Unexpected Reply"),
        ("description", JsValue.str responseBody)], JsValue.null)

/-- The `error` handler of `request` in `speakap.js`: a transport failure
invokes `callback({ code: -1000, message: "Request Failed", requestError:
error })` with no second argument (`result` is `undefined`). -/
def handleRequestError (transportError : JsValue) : JsValue × JsValue :=
  (JsValue.obj [("code", JsValue.num (-1000)),
    ("message", JsValue.str "Request Failed"),
    ("requestError", transportError)], JsValue.undef)

/-- Exactly one of the two callback arguments `(error, result)` is
populated. -/
def exclusiveOutcome (p : JsValue × JsValue) : Bool :=
  xor p.1.populated p.2.populated

/-! ## The `API` constructor -/

/-- The configuration object handed to `new Speakap.API({...})`; absent
properties are `none`. -/
structure Config where
  scheme : String
  hostname : String
  appId : Option String
  appSecret : Option String
  apiVersion : Option String

/-- The state of a constructed `API` instance. `scheme` stores the scheme
name whose module `require(config.scheme)` loaded; `accessToken` is the
derived default bearer token, absent when `appId && appSecret` is falsy. -/
structure APIState where
  scheme : String
  hostname : String
  appId : Option String
  appSecret : Option String
  apiVersion : String
  accessToken : Option String

/-- The `API(config)` constructor from `speakap.js`: throws unless
`config.scheme` is exactly `"http"` or `"https"`, stores the
configuration, defaults `apiVersion` to `"1.1"`, and derives
`accessToken = appId + "_" + appSecret` when both `appId` and `appSecret`
are truthy. It performs no request. -/
def API (config : Config) : Except String APIState :=
  if config.scheme ≠ "http" ∧ config.scheme ≠ "https" then
    Except.error "Speakap scheme should be http or https"
  else
    Except.ok
      ⟨config.scheme, config.hostname, config.appId, config.appSecret,
        jsOrStr config.apiVersion "1.1",
        if truthy config.appId && truthy config.appSecret then
          some (jsToString config.appId ++ "_" ++ jsToString config.appSecret)
        else none⟩

/-! ## Per-call options, the `options`/`callback` argument shuffle -/

/-- The per-call `options` object: `accept`, `accessToken`, `contentType`,
each possibly absent. -/
structure CallOptions where
  accept : Option String
  accessToken : Option String
  contentType : Option String
  deriving DecidableEq

/-- The empty options object `{}`. -/
def emptyCallOptions : CallOptions := ⟨none, none, none⟩

/-- A dynamically-typed JS argument as passed in the `options` or
`callback` position: a plain options object, a function (of abstract type
`C`), `undefined` (the argument was omitted), or some other non-object
value. -/
inductive Dyn (C : Type) where
  | object (o : CallOptions)
  | fn (f : C)
  | undef
  | prim (v : JsValue)

/-- Lodash `_.isObject`: objects and functions are objects. -/
def Dyn.isObject {C : Type} : Dyn C → Bool
  | .object _ => true
  | .fn _ => true
  | _ => false

/-- Lodash `_.isFunction`. -/
def Dyn.isFunction {C : Type} : Dyn C → Bool
  | .fn _ => true
  | _ => false

/-- Reading the `options` variable as an options object once it is known
to hold one (after normalization it always does). -/
def Dyn.asOptions {C : Type} : Dyn C → CallOptions
  | .object o => o
  | _ => emptyCallOptions

/-- The argument shuffle shared by `request` and `postAction`:
`if (!_.isObject(options) || _.isFunction(options)) { callback = options;
options = {}; }`. Returns the final `(options, callback)` pair. -/
def normalizeOptionsCallback {C : Type} (options callback : Dyn C) :
    Dyn C × Dyn C :=
  if !options.isObject || options.isFunction then
    (Dyn.object emptyCallOptions, options)
  else
    (options, callback)

/-! ## Headers built by the `request` pipeline -/

/-- The `headers` object assembled by `request` in `speakap.js`, in
insertion order: `Accept` always; `Authorization: Bearer <token>` when
`options.accessToken || this.accessToken` is truthy; `Content-length` and
`Content-type` when `data` is truthy (a missing or empty body sets
neither). `Content-length` is the UTF-8 byte length of the body
(`new Buffer(data).length`). -/
def requestHeaders (api : APIState) (options : CallOptions)
    (data : Option String) : List (String × String) :=
  let accept := jsOrStr options.accept
    ("application/vnd.speakap.api-v" ++ api.apiVersion ++ "+json")
  let accessToken := jsOrOpt options.accessToken api.accessToken
  let withAuth :=
    if truthy accessToken then
      [("Accept", accept), ("Authorization", "Bearer " ++ jsToString accessToken)]
    else
      [("Accept", accept)]
  if truthy data then
    withAuth ++
      [("Content-length", toString (jsToString data).utf8ByteSize),
       ("Content-type", jsOrStr options.contentType "application/json" ++ "; charset=utf-8")]
  else
    withAuth

/-! ## The verb methods and prototype dispatch

`_.extend(API.prototype, {...})` installs exactly these methods on the
prototype. The verb methods forward to the internal pipeline by property
lookup on `this`: `get`/`delete`/`post` call `this.request(...)`, while
`put` and `postAction` call `this._request(...)` — a name the prototype
does not define, so that lookup yields `undefined` and the call throws a
`TypeError`. A successful dispatch returns the `PipelineCall` describing
the single pipeline entry (method, path, serialized data, options,
callback). -/

/-- The method names installed on `API.prototype`. -/
def apiPrototypeMethods : List String :=
  ["delete", "get", "post", "postAction", "put", "request"]

/-- One entry into the internal request pipeline: the arguments of
`request(method, path, data, options, callback)`. -/
structure PipelineCall (C : Type) where
  method : String
  path : String
  data : Option String
  options : Dyn C
  callback : Dyn C

/-- A JS runtime error raised by the verb methods themselves. -/
inductive JsErr where
  | typeErrorUndefined (name : String)
  deriving DecidableEq

/-- Calling `this.<name>(args...)` to enter the request pipeline: if
`name` is a method of the prototype the pipeline runs with `call`'s
arguments; otherwise the property is `undefined` and the call throws
`TypeError`. -/
def pipelineDispatch {C : Type} (name : String) (call : PipelineCall C) :
    Except JsErr (PipelineCall C) :=
  if apiPrototypeMethods.contains name then Except.ok call
  else Except.error (JsErr.typeErrorUndefined name)

/-- `API.prototype["delete"]`: `this.request("DELETE", path, null,
options, callback)`. -/
def API.delete {C : Type} (path : String) (options callback : Dyn C) :
    Except JsErr (PipelineCall C) :=
  pipelineDispatch "request" ⟨"DELETE", path, none, options, callback⟩

/-- `API.prototype.get`: `this.request("GET", path, null, options,
callback)`. -/
def API.get {C : Type} (path : String) (options callback : Dyn C) :
    Except JsErr (PipelineCall C) :=
  pipelineDispatch "request" ⟨"GET", path, none, options, callback⟩

/-- `API.prototype.post`: `this.request("POST", path,
JSON.stringify(data), options, callback)`; `stringify` is the
`JSON.stringify` oracle. -/
def API.post {C : Type} (stringify : JsValue → String) (path : String)
    (data : JsValue) (options callback : Dyn C) :
    Except JsErr (PipelineCall C) :=
  pipelineDispatch "request" ⟨"POST", path, some (stringify data), options, callback⟩

/-- `API.prototype.put`: `this._request("PUT", path,
JSON.stringify(data), options, callback)`. -/
def API.put {C : Type} (stringify : JsValue → String) (path : String)
    (data : JsValue) (options callback : Dyn C) :
    Except JsErr (PipelineCall C) :=
  pipelineDispatch "_request" ⟨"PUT", path, some (stringify data), options, callback⟩

/-- The form serialization done by `postAction`: plain
`encodeURIComponent` on keys and values (not `percentEncode`), joined by
`&` in insertion order. -/
def formUrlEncode (data : List (String × String)) : String :=
  String.intercalate "&" (data.map fun p =>
    encodeURIComponent p.1 ++ "=" ++ encodeURIComponent p.2)

/-- `_.extend({ contentType: "application/x-www-form-urlencoded" },
options)`: the base `contentType` is overridden by a `contentType`
property present on `options`. -/
def extendFormContentType (o : CallOptions) : CallOptions :=
  ⟨o.accept, o.accessToken,
    match o.contentType with
    | some c => some c
    | none => some "application/x-www-form-urlencoded"⟩

/-- `API.prototype.postAction`: form-encodes `data` (when non-null),
shuffles `options`/`callback`, extends the options with the form
content type, then calls `this._request("POST", ...)`. -/
def API.postAction {C : Type} (path : String)
    (data : Option (List (String × String))) (options callback : Dyn C) :
    Except JsErr (PipelineCall C) :=
  let dataStr := data.map formUrlEncode
  let oc := normalizeOptionsCallback options callback
  pipelineDispatch "_request"
    ⟨"POST", path, dataStr, Dyn.object (extendFormContentType oc.1.asOptions), oc.2⟩

/-! ## Order properties of the key comparison -/

theorem charListLt_asymm : ∀ as bs : List Char,
    charListLt as bs = true → charListLt bs as = false
  | _, [], h => by simp [charListLt] at h
  | [], _ :: _, _ => rfl
  | a :: as, b :: bs, h => by
    by_cases h1 : a.toNat < b.toNat
    · have h2 : ¬b.toNat < a.toNat := Nat.lt_asymm h1
      simp [charListLt, h1, h2]
    · by_cases h2 : b.toNat < a.toNat
      · simp [charListLt, h1, h2] at h
      · simp only [charListLt, if_neg h1, if_neg h2] at h
        simp only [charListLt, if_neg h1, if_neg h2]
        exact charListLt_asymm as bs h

theorem char_eq_of_toNat_eq {a b : Char} (h : a.toNat = b.toNat) : a = b :=
  Char.ext (UInt32.ext h)

theorem charListLt_eq_of_not_lt : ∀ as bs : List Char,
    charListLt as bs = false → charListLt bs as = false → as = bs
  | [], [], _, _ => rfl
  | [], _ :: _, h, _ => by simp [charListLt] at h
  | _ :: _, [], _, h2 => by simp [charListLt] at h2
  | a :: as, b :: bs, h1, h2 => by
    by_cases hab : a.toNat < b.toNat
    · simp [charListLt, hab] at h1
    · by_cases hba : b.toNat < a.toNat
      · simp [charListLt, hba] at h2
      · simp only [charListLt, if_neg hab, if_neg hba] at h1 h2
        have hc : a = b := char_eq_of_toNat_eq (by omega)
        rw [hc, charListLt_eq_of_not_lt as bs h1 h2]

theorem charListLt_trans : ∀ as bs cs : List Char,
    charListLt as bs = true → charListLt bs cs = true → charListLt as cs = true
  | _, bs, [], _, h2 => by simp [charListLt] at h2
  | [], _, _ :: _, _, _ => rfl
  | a :: as, [], c :: cs, h1, _ => by simp [charListLt] at h1
  | a :: as, b :: bs, c :: cs, h1, h2 => by
    simp only [charListLt] at h1 h2 ⊢
    by_cases hab : a.toNat < b.toNat
    · by_cases hbc : b.toNat < c.toNat
      · have hac : a.toNat < c.toNat := Nat.lt_trans hab hbc
        simp [hac]
      · by_cases hcb : c.toNat < b.toNat
        · rw [if_neg hbc, if_pos hcb] at h2
          exact absurd h2 (by simp)
        · have hac : a.toNat < c.toNat := by omega
          simp [hac]
    · by_cases hba : b.toNat < a.toNat
      · rw [if_neg hab, if_pos hba] at h1
        exact absurd h1 (by simp)
      · rw [if_neg hab, if_neg hba] at h1
        by_cases hbc : b.toNat < c.toNat
        · have hac : a.toNat < c.toNat := by omega
          simp [hac]
        · by_cases hcb : c.toNat < b.toNat
          · rw [if_neg hbc, if_pos hcb] at h2
            exact absurd h2 (by simp)
          · rw [if_neg hbc, if_neg hcb] at h2
            have hac : ¬a.toNat < c.toNat := by omega
            have hca : ¬c.toNat < a.toNat := by omega
            rw [if_neg hac, if_neg hca]
            exact charListLt_trans as bs cs h1 h2

instance : IsTotal String keyLe := by
  constructor
  intro a b
  by_cases h : charListLt b.data a.data = false
  · exact Or.inl h
  · exact Or.inr (charListLt_asymm _ _ (by simpa using h))

instance : IsTrans String keyLe := by
  constructor
  intro a b c hab hbc
  unfold keyLe at *
  by_contra hca
  have hca' : charListLt c.data a.data = true := by simpa using hca
  by_cases hlt : charListLt a.data b.data = true
  · have := charListLt_trans _ _ _ hca' hlt
    rw [this] at hbc
    exact Bool.noConfusion hbc
  · have hfe : a.data = b.data :=
      charListLt_eq_of_not_lt _ _ (by simpa using hlt) hab
    rw [← hfe] at hbc
    rw [hca'] at hbc
    exact Bool.noConfusion hbc

theorem string_eq_of_data_eq {a b : String} (h : a.data = b.data) : a = b := by
  cases a
  cases b
  exact congrArg String.mk h

instance : IsAntisymm String keyLe := by
  constructor
  intro a b hab hba
  exact string_eq_of_data_eq (charListLt_eq_of_not_lt _ _ hba hab)

/-! ## Sorting and lookup lemmas -/

theorem insertionSort_eq_of_perm {l l2 : List String} (h : l.Perm l2) :
    l.insertionSort keyLe = l2.insertionSort keyLe :=
  List.eq_of_perm_of_sorted
    ((List.perm_insertionSort keyLe l).trans
      (h.trans (List.perm_insertionSort keyLe l2).symm))
    (List.sorted_insertionSort keyLe l)
    (List.sorted_insertionSort keyLe l2)

theorem filter_insertionSort_comm (p : String → Bool) (l : List String) :
    (l.insertionSort keyLe).filter p = (l.filter p).insertionSort keyLe :=
  List.eq_of_perm_of_sorted
    (((List.perm_insertionSort keyLe l).filter p).trans
      (List.perm_insertionSort keyLe (l.filter p)).symm)
    (List.Pairwise.filter p (List.sorted_insertionSort keyLe l))
    (List.sorted_insertionSort keyLe (l.filter p))

theorem getProp_eq_of_perm {l l2 : List (String × String)} (h : l.Perm l2)
    (hnd : (l.map Prod.fst).Nodup) : ∀ k, getProp l k = getProp l2 k := by
  induction h with
  | nil => intro k; rfl
  | cons x h ih =>
    intro k
    simp only [List.map_cons, List.nodup_cons] at hnd
    simp only [getProp]
    by_cases hx : x.1 = k
    · simp [hx]
    · simp [hx, ih hnd.2 k]
  | swap x y l =>
    intro k
    simp only [List.map_cons, List.nodup_cons, List.mem_cons] at hnd
    have hxy : y.1 ≠ x.1 := fun he => hnd.1 (Or.inl he)
    simp only [getProp]
    by_cases h1 : y.1 = k
    · have h2 : x.1 ≠ k := fun he => hxy (h1.trans he.symm)
      simp [h1, h2]
    · by_cases h2 : x.1 = k
      · simp [h1, h2]
      · simp [h1, h2]
  | trans h1 h2 ih1 ih2 =>
    intro k
    have hnd2 := ((h1.map Prod.fst).nodup_iff).mp hnd
    rw [ih1 hnd k, ih2 hnd2 k]

/-! ## Claim theorems -/

/-- C3: the spec claims `percentEncode` escapes EVERY occurrence of
`! ' ( ) *`. The code calls `String.prototype.replace` with a string
pattern, which replaces only the first occurrence: on `"!!"` it returns
`"%21!"`, not the claimed `"%21%21"`. -/
theorem percentEncode_first_occurrence_only :
    percentEncode "!!" = "%21!" ∧ percentEncode "!!" ≠ "%21%21" :=
  ⟨rfl, by decide⟩

/-- C4: for parameter sets with distinct keys and no `signature` key, the
canonical query string computed by `validateSignature` is invariant under
any permutation of the insertion order. -/
theorem canonicalQueryString_insertion_order_independent
    (P Q : List (String × String)) (hnd : (P.map Prod.fst).Nodup)
    (_hsig : "signature" ∉ P.map Prod.fst) (hperm : P.Perm Q) :
    canonicalQueryString P = canonicalQueryString Q := by
  unfold canonicalQueryString
  rw [insertionSort_eq_of_perm (hperm.map Prod.fst)]
  have hget := getProp_eq_of_perm hperm hnd
  simp only [hget]

theorem canonicalQueryString_insertion_order_independent_witness :
    canonicalQueryString [("b", "x y"), ("a", "1")] =
      canonicalQueryString [("a", "1"), ("b", "x y")] :=
  canonicalQueryString_insertion_order_independent
    [("b", "x y"), ("a", "1")] [("a", "1"), ("b", "x y")]
    (by decide) (by decide) (List.Perm.swap ("a", "1") ("b", "x y") [])

/-- C5 (counterexample): the claim says the `signature` pair is appended
only if `params` contains a `signature` entry; the code appends it
unconditionally, reading the missing property as `undefined`, so a
signature-free parameter set yields a trailing `signature=undefined` pair
instead of the bare canonical string. -/
theorem signedRequest_missing_signature_counterexample :
    signedRequest [("a", "1")] = "a=1&signature=undefined" ∧
      signedRequest [("a", "1")] ≠ "a=1" :=
  ⟨rfl, by decide⟩

/-- C5 (amended): `signedRequest(params)` is the canonical pair list of
`validateSignature` followed, always, by a final
`signature=<percentEncode of the signature value>` pair, where a missing
`signature` entry reads as the string `"undefined"`. -/
theorem signedRequest_appends_signature_always (params : List (String × String)) :
    signedRequest params =
      String.intercalate "&"
        ((((params.map Prod.fst).insertionSort keyLe).filter
              (fun k => k ≠ "signature")).map
            (fun key => percentEncode key ++ "=" ++
              percentEncode (jsToString (getProp params key))) ++
          ["signature=" ++ percentEncode (jsToString (getProp params "signature"))]) := by
  simp only [signedRequest]
  rw [filter_insertionSort_comm, List.map_append]
  rfl

/-- C1: the spec claims verification fails whenever `issuedAt` does not
parse to a valid instant. In the code an unparseable `issuedAt` makes
`new Date(...).getTime()` return `NaN`, the guard
`Date.now() > NaN + 60000` is `false`, and — whatever the HMAC oracle,
the parse oracle and the current time — a request whose signature matches
is ACCEPTED, with the freshness check silently bypassed. -/
theorem validateSignature_invalid_issuedAt_accepted
    (hmacSha256Base64 : String → String → String)
    (parseDate : String → Option Int) (now : Int)
    (h : parseDate "not-a-date" = none) :
    validateSignature hmacSha256Base64 parseDate now
      [("issuedAt", "not-a-date"),
       ("signature", hmacSha256Base64 "s3cr3t" "issuedAt=not-a-date")]
      "s3cr3t" = Except.ok () := by
  have hc : canonicalQueryString
      [("issuedAt", "not-a-date"),
       ("signature", hmacSha256Base64 "s3cr3t" "issuedAt=not-a-date")] =
      "issuedAt=not-a-date" := rfl
  simp [validateSignature, hc, getProp, h, jsGtNan]

theorem validateSignature_invalid_issuedAt_accepted_witness :
    validateSignature (fun _ _ => "MAC") (fun _ => none) 99999999999999
      [("issuedAt", "not-a-date"), ("signature", "MAC")] "s3cr3t" =
      Except.ok () :=
  validateSignature_invalid_issuedAt_accepted
    (fun _ _ => "MAC") (fun _ => none) 99999999999999 rfl

/-- C2: the spec claims `put` and `postAction` route through the internal
request pipeline, issue one HTTP request and deliver their outcome through
the callback, just as `get`, `delete` and `post` do. In the code `put` and
`postAction` call `this._request(...)`, but the prototype defines no
`_request` method (only `request`), so both throw a `TypeError` before any
request is issued, while `get`, `delete` and `post` do reach the pipeline. -/
theorem put_postAction_typeError :
    (@API.put Unit (fun _ => "body") "/networks/1/messages/2/" JsValue.null
        (Dyn.object emptyCallOptions) (Dyn.fn ()) =
      Except.error (JsErr.typeErrorUndefined "_request")) ∧
    (@API.postAction Unit "/networks/1/messages/2/markread" none
        (Dyn.object emptyCallOptions) (Dyn.fn ()) =
      Except.error (JsErr.typeErrorUndefined "_request")) ∧
    (@API.get Unit "/networks/1/user/2/" (Dyn.object emptyCallOptions) (Dyn.fn ()) =
      Except.ok ⟨"GET", "/networks/1/user/2/", none,
        Dyn.object emptyCallOptions, Dyn.fn ()⟩) ∧
    (@API.delete Unit "/networks/1/messages/2/" (Dyn.object emptyCallOptions)
        (Dyn.fn ()) =
      Except.ok ⟨"DELETE", "/networks/1/messages/2/", none,
        Dyn.object emptyCallOptions, Dyn.fn ()⟩) ∧
    (@API.post Unit (fun _ => "body") "/networks/1/messages/" JsValue.null
        (Dyn.object emptyCallOptions) (Dyn.fn ()) =
      Except.ok ⟨"POST", "/networks/1/messages/", some "body",
        Dyn.object emptyCallOptions, Dyn.fn ()⟩) :=
  ⟨rfl, rfl, rfl, rfl, rfl⟩

/-- C6 (counterexample): the claim says a successful construction derives
the token exactly when both `appId` and `appSecret` are present. With
`appId` present but equal to the empty string (and `appSecret` present and
non-empty), `this.appId && this.appSecret` is falsy and NO token is
derived, contradicting the claim. -/
theorem API_empty_appId_no_token :
    (API ⟨"https", "api.speakap.io", some "", some "s3cr3t", none⟩).map
        APIState.accessToken = Except.ok none ∧
      (none : Option String) ≠ some ("" ++ "_" ++ "s3cr3t") :=
  ⟨rfl, by decide⟩

/-- C6 (amended): construction fails (with the bad-scheme error, before
anything else happens) iff `scheme` is neither `"http"` nor `"https"`, and
a successful construction derives `accessToken = appId + "_" + appSecret`
exactly when both `appId` and `appSecret` are truthy — present AND
non-empty (JS truthiness). -/
theorem API_construction_spec (cfg : Config) :
    ((∃ st, API cfg = Except.ok st) ↔
      cfg.scheme = "http" ∨ cfg.scheme = "https") ∧
    (∀ st, API cfg = Except.ok st →
      st.accessToken =
        if truthy cfg.appId && truthy cfg.appSecret then
          some (jsToString cfg.appId ++ "_" ++ jsToString cfg.appSecret)
        else none) ∧
    (¬(cfg.scheme = "http" ∨ cfg.scheme = "https") →
      API cfg = Except.error "Speakap scheme should be http or https") := by
  unfold API
  by_cases h : cfg.scheme ≠ "http" ∧ cfg.scheme ≠ "https"
  · rw [if_pos h]
    refine ⟨?_, ?_, ?_⟩
    · constructor
      · rintro ⟨st, hst⟩
        exact absurd hst (by simp)
      · intro hs
        exact absurd hs (by tauto)
    · intro st hst
      exact absurd hst (by simp)
    · intro _
      rfl
  · rw [if_neg h]
    refine ⟨?_, ?_, ?_⟩
    · constructor
      · intro _
        by_contra hs
        push_neg at hs
        exact h ⟨hs.1, hs.2⟩
      · intro _
        exact ⟨_, rfl⟩
    · intro st hst
      have := (Except.ok.injEq _ _).mp hst
      rw [← this]
    · intro hs
      exact absurd (by tauto : cfg.scheme = "http" ∨ cfg.scheme = "https") hs

theorem API_construction_spec_witness :
    APIState.accessToken
        ⟨"https", "api.speakap.io", some "id", some "secret", "1.1",
          some "id_secret"⟩ = some "id_secret" :=
  (API_construction_spec ⟨"https", "api.speakap.io", some "id", some "secret",
      none⟩).2.1
    ⟨"https", "api.speakap.io", some "id", some "secret", "1.1",
      some "id_secret"⟩ rfl

/-- C7: response classification. Status 204 yields `(null, true)` with no
body parse (the result is the same for every parse oracle, as the goal is
universally quantified over `parse`); any other 2xx status yields the
JSON-parsed body as the result; any non-2xx status yields the JSON-parsed
body as the error; a parse failure on either path yields the synthesized
error `{ code: -1001, message: "Unexpected Reply", description: <raw
body> }`. -/
theorem handleResponseEnd_classification (parse : String → Option JsValue)
    (statusCode : Nat) (responseBody : String) :
    (statusCode = 204 →
      handleResponseEnd parse statusCode responseBody =
        (JsValue.null, JsValue.bool true)) ∧
    (statusCode ≠ 204 → 200 ≤ statusCode → statusCode < 300 →
      ∀ j, parse responseBody = some j →
        handleResponseEnd parse statusCode responseBody = (JsValue.null, j)) ∧
    (¬(200 ≤ statusCode ∧ statusCode < 300) →
      ∀ j, parse responseBody = some j →
        handleResponseEnd parse statusCode responseBody = (j, JsValue.null)) ∧
    (statusCode ≠ 204 → parse responseBody = none →
      handleResponseEnd parse statusCode responseBody =
        (JsValue.obj [("code", JsValue.num (-1001)),
          ("message", JsValue.str "Unexpected Reply"),
          ("description", JsValue.str responseBody)], JsValue.null)) := by
  refine ⟨?_, ?_, ?_, ?_⟩
  · intro h204
    simp [handleResponseEnd, h204]
  · intro h204 hlo hhi j hj
    simp [handleResponseEnd, h204, hlo, hhi, hj]
  · intro h2xx j hj
    have h204 : statusCode ≠ 204 := fun he => h2xx (by omega)
    simp [handleResponseEnd, h204, h2xx, hj]
  · intro h204 hj
    by_cases h2xx : 200 ≤ statusCode ∧ statusCode < 300
    · simp [handleResponseEnd, h204, h2xx, hj]
    · simp [handleResponseEnd, h204, h2xx, hj]

theorem handleResponseEnd_classification_witness :
    handleResponseEnd (fun _ => none) 404 "oops" =
      (JsValue.obj [("code", JsValue.num (-1001)),
        ("message", JsValue.str "Unexpected Reply"),
        ("description", JsValue.str "oops")], JsValue.null) :=
  (handleResponseEnd_classification (fun _ => none) 404 "oops").2.2.2
    (by decide) rfl

theorem populated_null_eq : JsValue.populated JsValue.null = false := rfl

/-- A JSON value other than `null` (and `undefined`, which `JSON.parse`
never returns) is a populated callback argument. -/
theorem populated_of_ne_null {j : JsValue} (h : j ≠ JsValue.null)
    (h2 : j ≠ JsValue.undef) : j.populated = true := by
  cases j <;> first | rfl | exact absurd rfl h | exact absurd rfl h2

/-- C8 (counterexample): a 2xx response whose body is the four characters
`null` JSON-parses to `null`; the handler then invokes
`callback(null, null)` — NEITHER argument populated — contradicting the
claim that exactly one of `(error, result)` is always populated, in
particular for 2xx bodies parsing to `null`. -/
theorem handleResponseEnd_null_body_neither :
    handleResponseEnd (fun s => if s = "null" then some JsValue.null else none)
        200 "null" = (JsValue.null, JsValue.null) ∧
      exclusiveOutcome (JsValue.null, JsValue.null) = false :=
  ⟨rfl, rfl⟩

/-- On every path of the response handler at least one of the two slots
is left at an unpopulated value (`null` or, for a parse result the oracle
should never produce, `undefined`): the code never fills both `error` and
`result`. -/
theorem handleResponseEnd_not_both (parse : String → Option JsValue)
    (statusCode : Nat) (responseBody : String) :
    (handleResponseEnd parse statusCode responseBody).1.populated = false ∨
    (handleResponseEnd parse statusCode responseBody).2.populated = false := by
  by_cases h204 : statusCode = 204
  · simp [handleResponseEnd, h204, populated_null_eq]
  · by_cases h2xx : 200 ≤ statusCode ∧ statusCode < 300
    · cases hp : parse responseBody with
      | none => simp [handleResponseEnd, h204, h2xx, hp, populated_null_eq]
      | some j => simp [handleResponseEnd, h204, h2xx, hp, populated_null_eq]
    · cases hp : parse responseBody with
      | none => simp [handleResponseEnd, h204, h2xx, hp, populated_null_eq]
      | some j => simp [handleResponseEnd, h204, h2xx, hp, populated_null_eq]

/-- C8 (amended): exactly one of the two callback arguments is populated
on the transport-failure path and on every response path EXCEPT a non-204
response whose body JSON-parses to `null` — on every such path, whatever
the status and the parsed value, the handler yields `(null, null)` and
neither argument is populated; and on NO path whatsoever (no hypothesis on
the status or the parse outcome) are both arguments populated
simultaneously. -/
theorem callback_outcome_exclusive (parse : String → Option JsValue)
    (statusCode : Nat) (responseBody : String) (transportError : JsValue) :
    (parse responseBody ≠ some JsValue.undef →
      statusCode = 204 ∨ parse responseBody ≠ some JsValue.null →
      exclusiveOutcome (handleResponseEnd parse statusCode responseBody) = true) ∧
    (statusCode ≠ 204 → parse responseBody = some JsValue.null →
      handleResponseEnd parse statusCode responseBody =
        (JsValue.null, JsValue.null)) ∧
    exclusiveOutcome (handleRequestError transportError) = true ∧
    ¬((handleResponseEnd parse statusCode responseBody).1.populated = true ∧
      (handleResponseEnd parse statusCode responseBody).2.populated = true) := by
  refine ⟨?_, ?_, rfl, ?_⟩
  · intro hjson h
    by_cases h204 : statusCode = 204
    · simp [handleResponseEnd, h204, exclusiveOutcome, JsValue.populated]
    · have hnn : parse responseBody ≠ some JsValue.null := by tauto
      by_cases h2xx : 200 ≤ statusCode ∧ statusCode < 300
      · cases hp : parse responseBody with
        | none =>
          simp [handleResponseEnd, h204, h2xx, hp, exclusiveOutcome,
            JsValue.populated]
        | some j =>
          have hj : j.populated = true :=
            populated_of_ne_null (fun he => hnn (by rw [hp, he]))
              (fun he => hjson (by rw [hp, he]))
          simp [handleResponseEnd, h204, h2xx, hp, exclusiveOutcome,
            populated_null_eq, hj]
      · cases hp : parse responseBody with
        | none =>
          simp [handleResponseEnd, h204, h2xx, hp, exclusiveOutcome,
            JsValue.populated]
        | some j =>
          have hj : j.populated = true :=
            populated_of_ne_null (fun he => hnn (by rw [hp, he]))
              (fun he => hjson (by rw [hp, he]))
          simp [handleResponseEnd, h204, h2xx, hp, exclusiveOutcome,
            populated_null_eq, hj]
  · intro h204 hnull
    by_cases h2xx : 200 ≤ statusCode ∧ statusCode < 300
    · simp [handleResponseEnd, h204, h2xx, hnull]
    · simp [handleResponseEnd, h204, h2xx, hnull]
  · intro hboth
    rcases handleResponseEnd_not_both parse statusCode responseBody with hne | hne
    · rw [hboth.1] at hne
      exact Bool.noConfusion hne
    · rw [hboth.2] at hne
      exact Bool.noConfusion hne

theorem callback_outcome_exclusive_witness :
    (exclusiveOutcome (handleResponseEnd (fun _ => some (JsValue.bool true)) 200
      "true") = true) ∧
    handleResponseEnd (fun s => if s = "null" then some JsValue.null else none)
        404 "null" = (JsValue.null, JsValue.null) :=
  ⟨(callback_outcome_exclusive (fun _ => some (JsValue.bool true)) 200 "true"
      JsValue.null).1 (by simp) (Or.inr (by simp)),
   (callback_outcome_exclusive
      (fun s => if s = "null" then some JsValue.null else none) 404 "null"
      JsValue.null).2.1 (by decide) rfl⟩

/-- C9 (counterexample): the claim says the `Authorization` header carries
the per-call `options.accessToken` whenever one is given. A per-call token
equal to the empty string is given but falsy, so
`options.accessToken || this.accessToken` falls back to the client-level
token: the header reads `Bearer id_secret`, not the claimed `Bearer `. -/
theorem authorization_empty_override_counterexample :
    getProp (requestHeaders
        ⟨"https", "api.speakap.io", some "id", some "secret", "1.1",
          some "id_secret"⟩
        ⟨none, some "", none⟩ none) "Authorization" =
      some "Bearer id_secret" ∧
    some "Bearer id_secret" ≠ some ("Bearer " ++ "") :=
  ⟨rfl, by decide⟩

/-- C9 (amended): the `Authorization` header is `Bearer ` followed by the
per-call `options.accessToken` when that is truthy (present and
non-empty), else by the client-level token when that is truthy; when
neither is truthy no `Authorization` header is sent at all. -/
theorem authorization_header_spec (api : APIState) (options : CallOptions)
    (data : Option String) :
    (getProp (requestHeaders api options data) "Authorization" =
      if truthy options.accessToken then
        some ("Bearer " ++ jsToString options.accessToken)
      else if truthy api.accessToken then
        some ("Bearer " ++ jsToString api.accessToken)
      else none) ∧
    (¬truthy options.accessToken = true → ¬truthy api.accessToken = true →
      "Authorization" ∉ (requestHeaders api options data).map Prod.fst) := by
  by_cases h1 : truthy options.accessToken <;>
    by_cases h2 : truthy api.accessToken <;>
      by_cases h3 : truthy data <;>
        refine ⟨?_, ?_⟩ <;>
          simp [requestHeaders, jsOrOpt, getProp, h1, h2, h3]

theorem authorization_header_spec_witness :
    "Authorization" ∉ (requestHeaders ⟨"https", "api.speakap.io", none, none,
      "1.1", none⟩ emptyCallOptions none).map Prod.fst :=
  (authorization_header_spec ⟨"https", "api.speakap.io", none, none, "1.1",
      none⟩ emptyCallOptions none).2 (by decide) (by decide)

/-- C10: when the `options` argument of `request` or `postAction` is
omitted (`undefined`), a function, or any non-object value, the code
assigns it to `callback` (so a function there becomes the callback) and
replaces it with the empty options object, so the per-call defaults apply
exactly as when no overrides were given — both for the headers built by
`request` and for the content type forwarded by `postAction`. -/
theorem options_argument_normalization {C : Type} (options callback : Dyn C)
    (h : options.isObject = false ∨ options.isFunction = true) :
    normalizeOptionsCallback options callback =
      (Dyn.object emptyCallOptions, options) ∧
    (∀ api data,
      requestHeaders api (normalizeOptionsCallback options callback).1.asOptions
          data =
        requestHeaders api emptyCallOptions data) ∧
    extendFormContentType
        (normalizeOptionsCallback options callback).1.asOptions =
      extendFormContentType emptyCallOptions := by
  have hcond : (!options.isObject || options.isFunction) = true := by
    rcases h with h | h <;> simp [h]
  rw [normalizeOptionsCallback, if_pos hcond]
  exact ⟨rfl, fun api data => rfl, rfl⟩

theorem options_argument_normalization_witness :
    @normalizeOptionsCallback Unit Dyn.undef Dyn.undef =
      (Dyn.object emptyCallOptions, Dyn.undef) :=
  (@options_argument_normalization Unit Dyn.undef Dyn.undef (Or.inl rfl)).1

end Speakap
